import Mathlib

/-!
Shallow embedding of the decision logic of the NGS reimbursement app
(`src/app.py`): panel catalog, risk annotator, panel selector, risk
filter, CPT-code mapping, ROI projection, workflow comparison and the
exported summary table, together with theorems settling the claims about
them.
-/

namespace NGSApp

/-- Boolean test that the first character list is a prefix of the second. -/
def startsWithChars : List Char → List Char → Bool
  | [], _ => true
  | _ :: _, [] => false
  | a :: as, b :: bs => a == b && startsWithChars as bs

/-- Python substring containment `needle in hay`, on character lists:
true when `needle` occurs contiguously inside `hay`. -/
def hasSubChars (needle : List Char) : List Char → Bool
  | [] => needle.isEmpty
  | c :: rest => startsWithChars needle (c :: rest) || hasSubChars needle rest

/-- Python `needle in hay` for strings (substring containment). -/
def strContains (hay needle : String) : Bool :=
  hasSubChars needle.toList hay.toList

/-- The characters before the first occurrence of the (non-empty)
separator `sep`; when `sep` does not occur, the whole list.  This is
Python `s.split(sep)[0]`. -/
def takeBeforeSep (sep : List Char) : List Char → List Char
  | [] => []
  | c :: rest =>
    if startsWithChars sep (c :: rest) then [] else c :: takeBeforeSep sep rest

/-- Python `s.split(sep)[0]` for strings. -/
def splitFirst (s sep : String) : String :=
  String.mk (takeBeforeSep sep.toList s.toList)

/-- The panel catalog `sophia_panels` of `src/app.py` (lines 56-78):
panel display name mapped to gene count, in declaration order. -/
def sophia_panels : List (String × Nat) :=
  [ ("Solid Tumor – DNA Panel (325 genes)", 325)
  , ("Solid Tumor – RNA Panel (50 genes)", 50)
  , ("Solid Tumor – DNA + RNA Panel (375 genes)", 375)
  , ("Hematologic – DNA Panel (65 genes)", 65)
  , ("Hematologic – RNA Panel (50 genes)", 50)
  , ("Hematologic – DNA + RNA Panel (115 genes)", 115)
  , ("Liquid Biopsy – ctDNA (500 genes)", 500)
  , ("Germline – Hereditary Cancer Panel (47 genes)", 47)
  , ("Germline – Cardiovascular/Metabolic Panel (60 genes)", 60)
  , ("Germline – Pediatric/Undiagnosed Disease Panel (160 genes)", 160)
  , ("WES – SOPHiA Exome Backbone (19000 genes)", 19000)
  , ("WGS – SOPHiA Genome Backbone (20000+ genes)", 20000)
  , ("General – Solid Tumor DNA Panel (<50 genes)", 45)
  , ("General – Solid Tumor RNA Panel (<50 genes)", 40)
  , ("General – Solid Tumor DNA+RNA Panel (<100 genes)", 90)
  , ("General – Heme DNA Panel (<50 genes)", 48)
  , ("General – Heme RNA Panel (<50 genes)", 45)
  , ("General – Heme DNA+RNA Panel (<100 genes)", 95)
  , ("General – Germline Panel (<50 genes)", 40)
  , ("General – Germline Panel (50-100 genes)", 75)
  , ("General – Germline Panel (>100 genes)", 150) ]

/-- `sophia_panels.keys()` in declaration order. -/
def catalogKeys : List String :=
  sophia_panels.map Prod.fst

/-- Python `sophia_panels[p]` as an optional lookup (a missing key is a
KeyError in Python, `none` here). -/
def lookupGenes (p : String) : Option Nat :=
  (sophia_panels.find? (fun e => e.fst == p)).map Prod.snd

/-- The risk table `risk_notes` of `src/app.py` (lines 95-124): panel
name mapped to (risk_level, billing_note), 7 curated entries. -/
def risk_notes : List (String × String × String) :=
  [ ("General – Germline Panel (50-100 genes)", "Medium",
     "Consider billing with 81455. Denial risk may increase if policy requires <50 genes. Ensure strong documentation of medical necessity.")
  , ("General – Germline Panel (>100 genes)", "High",
     "Most commercial payers do not cover panels >50 genes. Must use 81455. Recommend Z-code registration and MAC pre-check.")
  , ("Solid Tumor – DNA Panel (325 genes)", "High",
     "Panels >300 genes typically require billing with 81455. Ensure strong rationale and clinical documentation to justify extent of profiling.")
  , ("Solid Tumor – DNA + RNA Panel (375 genes)", "High",
     "High complexity assay – may not be reimbursed by all commercial payers. Use 81455 and document clearly why combined profiling was medically necessary.")
  , ("Liquid Biopsy – ctDNA (500 genes)", "Very High",
     "Very few payers reimburse for ctDNA panels >300 genes. Consider alternatives or seek pre-authorization. Billing typically requires 81455.")
  , ("WES – SOPHiA Exome Backbone (19000 genes)", "Very High",
     "Exome sequencing is rarely reimbursed as first-line test. Pairing with carved-out panels may help justify clinical utility and improve ROI.")
  , ("WGS – SOPHiA Genome Backbone (20000+ genes)", "Very High",
     "Whole genome sequencing is high-cost and low reimbursement unless bundled with additional diagnostic or carved-out reportable panels.") ]

/-- Python `risk_notes.get(p, empty dict).get("risk_level")`: the risk
level of a curated panel, `none` when the panel has no entry. -/
def riskLevel? (p : String) : Option String :=
  (risk_notes.find? (fun e => e.fst == p)).map (fun e => e.snd.fst)

/-- Python `risk_notes.get(p, empty dict).get("billing_note")`: the
billing note of a curated panel, `none` when the panel has no entry. -/
def billingNote? (p : String) : Option String :=
  (risk_notes.find? (fun e => e.fst == p)).map (fun e => e.snd.snd)

/-- `src/app.py` lines 139-140: risk level and billing note with the
dictionary-lookup defaults applied. -/
def annotate (p : String) : String × String :=
  ((riskLevel? p).getD "Not Specified",
   (billingNote? p).getD "Standard documentation applies.")

/-- The dictionary `cpt_mapping` of `src/app.py` line 148. -/
def cpt_mapping : List (String × String) :=
  [("<50", "81450"), ("50-100", "81455"), (">100", "81455")]

/-- Python `cpt_mapping[k]` (total on the three keys used). -/
def cptLookup (k : String) : String :=
  ((cpt_mapping.find? (fun e => e.fst == k)).map Prod.snd).getD ""

/-- `src/app.py` lines 149-154: the suggested CPT code derived from the
panel gene count. -/
def suggested_cpt (panel_gene_count : Nat) : String :=
  if panel_gene_count ≤ 50 then cptLookup "<50"
  else if 50 < panel_gene_count ∧ panel_gene_count ≤ 100 then cptLookup "50-100"
  else cptLookup ">100"

/-- The ten selectable test types (`src/app.py` lines 40-44). -/
def test_types : List String :=
  [ "Solid Tumor – DNA", "Solid Tumor – RNA", "Solid Tumor – DNA + RNA"
  , "Hematologic – DNA", "Hematologic – RNA", "Hematologic – DNA + RNA"
  , "Liquid Biopsy", "Germline", "WES (Whole Exome)", "WGS (Whole Genome)" ]

/-- The two selectable panel sources (`src/app.py` line 50). -/
def panel_sources : List String :=
  ["SOPHiA Genetics", "General Category"]

/-- `src/app.py` lines 80-87: the candidate panel list derived from the
test type and the panel source, in catalog declaration order. -/
def available_panels (test_type panel_source : String) : List String :=
  if test_type == "WES (Whole Exome)" || test_type == "WGS (Whole Genome)" then
    catalogKeys.filter (fun p => strContains p (splitFirst test_type " "))
  else if panel_source == "SOPHiA Genetics" then
    catalogKeys.filter (fun p =>
      strContains p (splitFirst test_type " –") && !(strContains p "General"))
  else if panel_source == "General Category" then
    catalogKeys.filter (fun p =>
      strContains p (splitFirst test_type " –") && strContains p "General")
  else
    catalogKeys

/-- The first whitespace-delimited token of a string (spec wording for
the Whole-Exome / Whole-Genome branch of the selector). -/
def firstWhitespaceToken (s : String) : String :=
  String.mk (s.toList.takeWhile (fun c => !c.isWhitespace))

/-- The substring of `s` preceding the first " –" (spec wording for the
source branches of the selector); the whole string when " –" is absent. -/
def precedingEnDash (s : String) : String :=
  String.mk (takeBeforeSep [' ', '–'] s.toList)

/-- The Panel Filter / Selector algorithm exactly as the spec's section
4.3 words it, to be compared with `available_panels` from the source. -/
def availablePanelsSpec (test_type panel_source : String) : List String :=
  if test_type == "WES (Whole Exome)" || test_type == "WGS (Whole Genome)" then
    catalogKeys.filter (fun p => strContains p (firstWhitespaceToken test_type))
  else if panel_source == "SOPHiA Genetics" then
    catalogKeys.filter (fun p =>
      strContains p (precedingEnDash test_type) && !(strContains p "General"))
  else if panel_source == "General Category" then
    catalogKeys.filter (fun p =>
      strContains p (precedingEnDash test_type) && strContains p "General")
  else
    catalogKeys

/-- `src/app.py` line 127: the risk filter applied to the candidate
list.  An empty `filter_risk` keeps everything; otherwise a panel stays
exactly when its looked-up risk level (absent for uncurated panels, and
`None` is never a member of a list of strings) is in `filter_risk`. -/
def filtered_panels (available : List String) (filter_risk : List String) : List String :=
  available.filter (fun p =>
    filter_risk.isEmpty ||
      (match riskLevel? p with
       | some r => filter_risk.contains r
       | none => false))

/-- The ROI projection record (`src/app.py` lines 173-175). -/
structure ROIProjection where
  break_even_panels : ℚ
  actual_revenue : List ℚ
  profit : List ℚ
deriving DecidableEq

/-- Failure modes of the ROI computation: Python's ZeroDivisionError,
and the `InvalidInput` error kind the spec's error-handling section
names. -/
inductive RoiError where
  | zeroDivision
  | invalidInput
deriving DecidableEq

deriving instance DecidableEq for Except

/-- `src/app.py` lines 173-175: break-even, revenue and profit for a
carve-out strategy.  The division `cost / reimbursement` raises
ZeroDivisionError in Python when the reimbursement is zero; there is no
validation before it. -/
def roi_projection (cost reimbursement : ℚ) (max_panels : Nat) :
    Except RoiError ROIProjection :=
  if reimbursement = 0 then Except.error RoiError.zeroDivision
  else
    let actual_revenue :=
      (List.range max_panels).map (fun (n : ℕ) => ((n : ℚ) + 1) * reimbursement)
    Except.ok
      { break_even_panels := cost / reimbursement
      , actual_revenue := actual_revenue
      , profit := actual_revenue.map (fun rev => rev - cost) }

/-- A Streamlit number input with bounds returns a value inside
[lo, hi]; modelled as a clamp of the entered value (`src/app.py` lines
169-171 give the reimbursement input min_value=100, max_value=2000). -/
def number_input_value (lo hi v : ℚ) : ℚ :=
  max lo (min v hi)

/-- `src/app.py` line 284. -/
def archer_total (archer_rna_cost separate_dna_cost : ℤ) : ℤ :=
  archer_rna_cost + separate_dna_cost

/-- `src/app.py` lines 284-285: the per-sample savings of the unified
workflow over the dual workflow. -/
def workflow_comparison (archer_rna_cost separate_dna_cost sophiacgp_cost : ℤ) : ℤ :=
  archer_total archer_rna_cost separate_dna_cost - sophiacgp_cost

/-- One report record (`src/app.py` lines 159-165, dictionary keys in
insertion order: Panel, Genes, Risk, CPT Code, Billing Guidance). -/
structure ReportRecord where
  panel : String
  genes : Nat
  risk : String
  cpt_code : String
  billing_guidance : String
deriving DecidableEq

/-- The record built for one selected panel (`src/app.py` lines
138-165). -/
def makeReportRecord (p : String) (g : Nat) : ReportRecord :=
  { panel := p
  , genes := g
  , risk := (riskLevel? p).getD "Not Specified"
  , cpt_code := suggested_cpt g
  , billing_guidance := (billingNote? p).getD "Standard documentation applies." }

/-- The selected-panel loop of `src/app.py` lines 132-165: every
selected panel yields a warning when it misses the risk filter (line
134-135) and then, unconditionally, one report record (line 159).  The
catalog lookup on line 138 is a Python KeyError (`none`) for a panel
absent from the catalog. -/
def processSelected (filtered : List String) : List String → Option (List ReportRecord × List String)
  | [] => some ([], [])
  | p :: rest =>
    match lookupGenes p with
    | none => none
    | some g =>
      match processSelected filtered rest with
      | none => none
      | some (recs, warns) =>
        some (makeReportRecord p g :: recs,
              if filtered.contains p then warns else p :: warns)

/-- Insertion of an element at a position of a list (pandas
`DataFrame.insert`). -/
def insertAtIdx : Nat → String → List String → List String
  | 0, a, l => a :: l
  | _ + 1, a, [] => [a]
  | n + 1, a, b :: l => b :: insertAtIdx n a l

/-- The columns a pandas DataFrame built from the report-record
dictionaries has: the dictionary keys in insertion order, and no columns
at all when the record list is empty. -/
def recordColumns (records : List ReportRecord) : List String :=
  if records.isEmpty then []
  else ["Panel", "Genes", "Risk", "CPT Code", "Billing Guidance"]

/-- `src/app.py` lines 217-220: the summary columns after the three
scalar inserts at positions 0, 1 and 2. -/
def summaryColumns (records : List ReportRecord) : List String :=
  insertAtIdx 2 "Test Type"
    (insertAtIdx 1 "Test Strategy"
      (insertAtIdx 0 "ZIP Code" (recordColumns records)))

/-- The cell row of one report record, in column order. -/
def recordRow (r : ReportRecord) : List String :=
  [r.panel, toString r.genes, r.risk, r.cpt_code, r.billing_guidance]

/-- `src/app.py` lines 217-220: the summary rows; a scalar insert
repeats its value on every row. -/
def summaryRows (zip_code test_strategy test_type : String)
    (records : List ReportRecord) : List (List String) :=
  records.map (fun r =>
    insertAtIdx 2 test_type
      (insertAtIdx 1 test_strategy
        (insertAtIdx 0 zip_code (recordRow r))))

/-- C1: the CPT-code function returns "81450" for every gene count up to
50 and "81455" for every gene count above 50 (so both the 50-100 band
and the >100 band give "81455"); the boundary values 50, 51, 100 and 101
evaluate as stated and the result is always one of the two codes. -/
theorem c1_cpt_code_bands (g : Nat) :
    (g ≤ 50 → suggested_cpt g = "81450") ∧
    (50 < g → suggested_cpt g = "81455") ∧
    suggested_cpt 50 = "81450" ∧ suggested_cpt 51 = "81455" ∧
    suggested_cpt 100 = "81455" ∧ suggested_cpt 101 = "81455" ∧
    (suggested_cpt g = "81450" ∨ suggested_cpt g = "81455") := by
  refine ⟨?_, ?_, by decide, by decide, by decide, by decide, ?_⟩
  · intro h
    simp [suggested_cpt, h, cptLookup, cpt_mapping]
  · intro h
    have h1 : ¬ g ≤ 50 := by omega
    by_cases h2 : g ≤ 100 <;>
      simp [suggested_cpt, h1, h, h2, cptLookup, cpt_mapping]
  · by_cases h : g ≤ 50
    · exact Or.inl (by simp [suggested_cpt, h, cptLookup, cpt_mapping])
    · refine Or.inr ?_
      have h1 : 50 < g := by omega
      by_cases h2 : g ≤ 100 <;>
        simp [suggested_cpt, h, h1, h2, cptLookup, cpt_mapping]

/-- Witness for C1 at the boundary gene counts 50 and 51. -/
theorem c1_cpt_code_bands_witness :
    suggested_cpt 50 = "81450" ∧ suggested_cpt 51 = "81455" :=
  ⟨(c1_cpt_code_bands 50).1 (by decide), (c1_cpt_code_bands 51).2.1 (by decide)⟩

/-- C6: a panel name with no entry in the 7-entry risk table is annotated
with the default risk level "Not Specified" and the generic billing
note. -/
theorem c6_annotate_default (name : String)
    (h : ∀ e ∈ risk_notes, e.fst ≠ name) :
    annotate name = ("Not Specified", "Standard documentation applies.") := by
  have hf : risk_notes.find? (fun e => e.fst == name) = none := by
    rw [List.find?_eq_none]
    intro e he
    simpa using h e he
  simp [annotate, riskLevel?, billingNote?, hf]

/-- Witness for C6 at the spec's example panel name. -/
theorem c6_annotate_default_witness :
    annotate "Unknown Panel XYZ" =
      ("Not Specified", "Standard documentation applies.") :=
  c6_annotate_default "Unknown Panel XYZ" (by decide)

/-- C8: the workflow comparison computes exactly
(archer_rna_cost + separate_dna_cost) - sophia_cost, is positive exactly
when the unified workflow is cheaper than the dual one, and evaluates to
250 on the documented example. -/
theorem c8_workflow_comparison :
    (∀ a d s : ℤ, workflow_comparison a d s = (a + d) - s) ∧
    (∀ a d s : ℤ, 0 < workflow_comparison a d s ↔ s < a + d) ∧
    workflow_comparison 650 550 950 = 250 := by
  refine ⟨fun a d s => rfl, fun a d s => ?_, by decide⟩
  simp only [workflow_comparison, archer_total]
  omega

/-- C2 counterexample: at reimbursement 0 (cost 1200, five panels) the
ROI computation of the code hits Python's ZeroDivisionError at the
unguarded division; it does not fail with an InvalidInput error. -/
theorem c2_roi_zero_counterexample :
    roi_projection 1200 0 5 = Except.error RoiError.zeroDivision ∧
    roi_projection 1200 0 5 ≠ Except.error RoiError.invalidInput := by
  have h0 : roi_projection 1200 0 5 = Except.error RoiError.zeroDivision := by
    rw [roi_projection]
    norm_num
  refine ⟨h0, ?_⟩
  rw [h0]
  decide

/-- C2 amended: the code has no InvalidInput guard.  A reimbursement of
zero makes the division raise ZeroDivisionError; in the app the
reimbursement widget clamps its value to [100, 2000], so the division
never sees a non-positive reimbursement and the projection is always
computed. -/
theorem c2_reimbursement_guard (cost : ℚ) (max_panels : Nat) (v : ℚ) :
    roi_projection cost 0 max_panels = Except.error RoiError.zeroDivision ∧
    100 ≤ number_input_value 100 2000 v ∧
    ∃ proj, roi_projection cost (number_input_value 100 2000 v) max_panels =
      Except.ok proj := by
  have hle : (100 : ℚ) ≤ number_input_value 100 2000 v := le_max_left _ _
  have hne : number_input_value 100 2000 v ≠ 0 := by
    intro h
    rw [h] at hle
    norm_num at hle
  refine ⟨by rw [roi_projection]; norm_num, hle, ?_⟩
  rw [roi_projection, if_neg hne]
  exact ⟨_, rfl⟩

/-- C3: for positive reimbursement and at least one panel report the ROI
projection succeeds; its break-even value is the exact quotient
cost / reimbursement, its revenue and profit sequences have length
max_panels with n-th entries n * reimbursement and
n * reimbursement - cost for n in 1..max_panels, and the documented
example evaluates as stated. -/
theorem c3_roi_projection (cost reimbursement : ℚ) (max_panels : Nat)
    (hr : 0 < reimbursement) (_hm : 1 ≤ max_panels) :
    ∃ proj, roi_projection cost reimbursement max_panels = Except.ok proj ∧
      proj.break_even_panels = cost / reimbursement ∧
      proj.actual_revenue.length = max_panels ∧
      proj.profit.length = max_panels ∧
      (∀ i, i < max_panels →
        proj.actual_revenue.getD i 0 = ((i : ℚ) + 1) * reimbursement ∧
        proj.profit.getD i 0 = ((i : ℚ) + 1) * reimbursement - cost) ∧
      roi_projection 1200 400 5 = Except.ok
        { break_even_panels := 3
        , actual_revenue := [400, 800, 1200, 1600, 2000]
        , profit := [-800, -400, 0, 400, 800] } := by
  have hne : reimbursement ≠ 0 := ne_of_gt hr
  refine ⟨{ break_even_panels := cost / reimbursement
          , actual_revenue :=
              (List.range max_panels).map
                (fun (n : ℕ) => ((n : ℚ) + 1) * reimbursement)
          , profit :=
              ((List.range max_panels).map
                (fun (n : ℕ) => ((n : ℚ) + 1) * reimbursement)).map
                  (fun rev => rev - cost) },
        ?_, rfl, ?_, ?_, ?_, ?_⟩
  · rw [roi_projection, if_neg hne]
  · simp
  · simp
  · intro i hi
    constructor
    · simp [List.getD_eq_getElem?_getD, List.getElem?_range, hi]
    · simp [List.getD_eq_getElem?_getD, List.getElem?_range, hi]
  · rw [roi_projection]
    norm_num [List.range_succ]

/-- Witness for C3 at the documented example input. -/
theorem c3_roi_projection_witness :
    roi_projection 1200 400 5 = Except.ok
      { break_even_panels := 3
      , actual_revenue := [400, 800, 1200, 1600, 2000]
      , profit := [-800, -400, 0, 400, 800] } := by
  obtain ⟨proj, -, -, -, -, -, h⟩ :=
    c3_roi_projection 1200 400 5 (by norm_num) (by norm_num)
  exact h

/-- C5: with an empty allowed set the risk filter returns the panel list
unchanged, and with a non-empty allowed set it keeps exactly the panels
whose looked-up risk level is a member of the allowed set. -/
theorem c5_filter_empty_identity (panels allowed : List String)
    (h : allowed ≠ []) :
    filtered_panels panels [] = panels ∧
    (∀ p, p ∈ filtered_panels panels allowed ↔
      p ∈ panels ∧ ∃ r, riskLevel? p = some r ∧ r ∈ allowed) := by
  have hne : allowed.isEmpty = false := by
    simpa [List.isEmpty_iff] using h
  constructor
  · simp [filtered_panels]
  · intro p
    rw [filtered_panels, List.mem_filter]
    cases hr : riskLevel? p <;> simp [hne, hr]

/-- Witness for C5: the Very-High filter keeps the curated ctDNA panel. -/
theorem c5_filter_empty_identity_witness :
    "Liquid Biopsy – ctDNA (500 genes)" ∈ filtered_panels catalogKeys ["Very High"] :=
  (((c5_filter_empty_identity catalogKeys ["Very High"] (by decide)).2
      "Liquid Biopsy – ctDNA (500 genes)").mpr
    ⟨by decide, "Very High", by decide, by decide⟩)

/-- C10: any non-empty allowed risk set excludes every panel that has no
entry in the 7-entry risk table (its looked-up risk level is absent, so
it can never match); the catalog has exactly 14 such uncurated panels
and every one of them is removed from the catalog list by any non-empty
filter. -/
theorem c10_uncurated_excluded (allowed : List String) (h1 : allowed ≠ [])
    (_h2 : ∀ x ∈ allowed, x ∈ ["Low", "Medium", "High", "Very High"]) :
    (∀ panels p, p ∈ filtered_panels panels allowed → riskLevel? p ≠ none) ∧
    (catalogKeys.filter (fun p => (riskLevel? p).isNone)).length = 14 ∧
    (∀ p ∈ catalogKeys.filter (fun p => (riskLevel? p).isNone),
      p ∉ filtered_panels catalogKeys allowed) := by
  have hne : allowed.isEmpty = false := by
    simpa [List.isEmpty_iff] using h1
  have key : ∀ panels p, p ∈ filtered_panels panels allowed → riskLevel? p ≠ none := by
    intro panels p hp hnone
    simp [filtered_panels, List.mem_filter, hne, hnone] at hp
  refine ⟨key, by decide, ?_⟩
  intro p hp hmem
  rw [List.mem_filter] at hp
  exact key catalogKeys p hmem (Option.isNone_iff_eq_none.mp (by simpa using hp.2))

/-- Witness for C10 with the singleton filter set High. -/
theorem c10_uncurated_excluded_witness :
    "General – Solid Tumor DNA Panel (<50 genes)" ∉
      filtered_panels catalogKeys ["High"] :=
  (c10_uncurated_excluded ["High"] (by decide) (by decide)).2.2
    "General – Solid Tumor DNA Panel (<50 genes)" (by decide)

/-- C7: every selected panel present in the catalog yields exactly one
report record, in selection order, for any risk filter outcome; the
selected panels missing the filtered list are exactly the warned ones,
in order, and none of them is dropped from the report. -/
theorem c7_one_record_per_selection (sel filtered : List String)
    (h : ∀ p ∈ sel, (lookupGenes p).isSome) :
    ∃ recs warns, processSelected filtered sel = some (recs, warns) ∧
      recs.map ReportRecord.panel = sel ∧
      warns = sel.filter (fun p => !(filtered.contains p)) := by
  induction sel with
  | nil => exact ⟨[], [], rfl, rfl, rfl⟩
  | cons p rest ih =>
    have hp : (lookupGenes p).isSome := h p (List.mem_cons_self p rest)
    obtain ⟨g, hg⟩ := Option.isSome_iff_exists.mp hp
    obtain ⟨recs, warns, h1, h2, h3⟩ :=
      ih (fun q hq => h q (List.mem_cons_of_mem p hq))
    refine ⟨makeReportRecord p g :: recs,
            if filtered.contains p then warns else p :: warns, ?_, ?_, ?_⟩
    · simp [processSelected, hg, h1]
    · simp [h2, makeReportRecord]
    · rw [List.filter_cons]
      by_cases hc : filtered.contains p <;> simp [hc, h3]

/-- Witness for C7: a selected catalog panel outside the filtered list is
still processed into the report. -/
theorem c7_one_record_per_selection_witness :
    (processSelected [] ["Germline – Hereditary Cancer Panel (47 genes)"]).isSome := by
  obtain ⟨recs, warns, h1, -, -⟩ :=
    c7_one_record_per_selection
      ["Germline – Hereditary Cancer Panel (47 genes)"] [] (by decide)
  rw [h1]
  rfl

/-- C9 counterexample: with no report records the exported summary has
only the three inserted constant columns, not the eight columns the
claim states for every record sequence. -/
theorem c9_empty_summary_counterexample :
    summaryColumns [] = ["ZIP Code", "Test Strategy", "Test Type"] ∧
    summaryColumns [] ≠
      ["ZIP Code", "Test Strategy", "Test Type", "Panel", "Genes", "Risk",
       "CPT Code", "Billing Guidance"] := by
  constructor
  · decide
  · decide

/-- C9 amended: for every non-empty record sequence the exported summary
has exactly the eight documented columns in order, one row per record in
record order, and every row starts with the constant ZIP code, test
strategy and test type. -/
theorem c9_summary_format (zip_code test_strategy test_type : String)
    (records : List ReportRecord) (h : records ≠ []) :
    summaryColumns records =
      ["ZIP Code", "Test Strategy", "Test Type", "Panel", "Genes", "Risk",
       "CPT Code", "Billing Guidance"] ∧
    summaryRows zip_code test_strategy test_type records =
      records.map (fun r => zip_code :: test_strategy :: test_type :: recordRow r) ∧
    (summaryRows zip_code test_strategy test_type records).length = records.length := by
  have hne : records.isEmpty = false := by
    simpa [List.isEmpty_iff] using h
  refine ⟨?_, rfl, by simp [summaryRows]⟩
  simp [summaryColumns, recordColumns, hne, insertAtIdx]

/-- Witness for C9 at a one-record report. -/
theorem c9_summary_format_witness :
    summaryColumns
      [{ panel := "Solid Tumor – DNA Panel (325 genes)", genes := 325,
         risk := "High", cpt_code := "81455",
         billing_guidance := "Standard documentation applies." }] =
      ["ZIP Code", "Test Strategy", "Test Type", "Panel", "Genes", "Risk",
       "CPT Code", "Billing Guidance"] :=
  (c9_summary_format "10001" "Panel Only" "Solid Tumor – DNA"
    [{ panel := "Solid Tumor – DNA Panel (325 genes)", genes := 325,
       risk := "High", cpt_code := "81455",
       billing_guidance := "Standard documentation applies." }]
    (by decide)).1

/-- C4: over the app's ten selectable test types and two panel sources
the selector of the code agrees with the spec's wording of the same case
analysis, and for the whole-exome test type it returns exactly the one
catalog entry whose name contains "WES", whichever the panel source. -/
theorem c4_available_panels_refines (tt ps : String)
    (htt : tt ∈ test_types) (hps : ps ∈ panel_sources) :
    available_panels tt ps = availablePanelsSpec tt ps ∧
    available_panels "WES (Whole Exome)" ps =
      ["WES – SOPHiA Exome Backbone (19000 genes)"] := by
  fin_cases htt <;> fin_cases hps <;> exact ⟨by decide, by decide⟩

/-- Witness for C4 at the whole-exome test type and the general source. -/
theorem c4_available_panels_refines_witness :
    available_panels "WES (Whole Exome)" "General Category" =
      ["WES – SOPHiA Exome Backbone (19000 genes)"] :=
  (c4_available_panels_refines "WES (Whole Exome)" "General Category"
    (by decide) (by decide)).2

end NGSApp
